import Mathlib

/-!
Verification of the Customer-Service voice call-center core.

Shallow embedding of the core control flow of the repository:
  - `groq_agent.get_response` — the agentic tool-calling loop (groq_agent.py),
  - `tools.execute_tool` — the tool registry dispatcher (tools.py),
  - `database.get_history` / `database.save_turn` — the memory adapter (database.py),
  - `app.handle_speech` — the call turn controller (app.py).

The model inference boundary, the tool side effects and the SQL store are
external collaborators; they enter the embedding as explicit deterministic
parameters (stubs), exactly at the interfaces the code calls them through.
The unbounded `while True` agent loop is embedded with explicit fuel: a
result of `timeout` means the loop has not terminated within that many
rounds, so `for every fuel, timeout` is divergence. A `raised` result means
a Python exception propagated out of the function.
-/

namespace CustomerService

/-- One tool request produced by the model: `tool_call.id`,
`tool_call.function.name`, `tool_call.function.arguments` (raw JSON text). -/
structure ToolCall where
  id : String
  name : String
  arguments : String
deriving DecidableEq, Repr

/-- One message of a working transcript. Python represents these as dicts
(`role`/`content`, plus `tool_call_id` on tool results) or as the Groq
response message object (which carries `tool_calls`). `content` is
`Option String` because the response message content can be `None`. -/
structure Msg where
  role : String
  content : Option String
  toolCallId : Option String
  toolCalls : List ToolCall
deriving DecidableEq, Repr

/-- A plain role/content message, as the dict literals in the code build. -/
def mkMsg (role content : String) : Msg :=
  { role := role, content := some content, toolCallId := none, toolCalls := [] }

/-- The model inference boundary: `completion.choices[0]` gives
`finish_reason` and the response message (content, tool_calls). -/
structure Completion where
  finishReason : String
  content : Option String
  toolCalls : List ToolCall
deriving DecidableEq, Repr

/-- A deterministic model stub: transcript in, completion out;
`.error` is a raised exception from the invocation (timeout, malformed
response, ...). -/
def Model : Type := List Msg → Except Unit Completion

/-- A deterministic tool executor stub at the `execute_tool` interface;
`.error` is a raised exception. -/
def ToolExec : Type := String → String → Except Unit String

/-- Lift a total (never-raising) tool stub to the executor interface. -/
def totalExec (f : String → String → String) : ToolExec :=
  fun name args => Except.ok (f name args)

/-- Outcome of one `get_response` invocation in the embedding. -/
inductive LoopResult
  | raised
  | timeout
  | answer (reply : String)
deriving DecidableEq, Repr

/-- The system prompt of groq_agent.py (`SYSTEM_PROMPT`). -/
def SYSTEM_PROMPT : String :=
  "\nYou are a professional and empathetic call center agent. \n\nIMPORTANT RULES:\n- Your responses will be spoken aloud via text-to-speech, so:\n  * NO bullet points, NO markdown, NO special characters\n  * Use natural, conversational sentences only\n  * Keep responses concise but complete (2-4 sentences is ideal)\n- ALWAYS use tools to look up customer info and search the knowledge base BEFORE answering\n- Be empathetic — the caller may be frustrated\n- If you create a ticket, tell the customer their ticket ID\n- If you cannot resolve an issue, offer to escalate to a human agent\n- Address the customer by their first name once you know it\n"

/-- The fixed fallback apology of the agent loop (groq_agent.py line 92). -/
def FALLBACK : String :=
  "I\x27m sorry, I was unable to process that request. Please try again."

/-- `messages = [system, *history, user]` (groq_agent.py lines 61-65):
a fresh list holding the system prompt, the injected history and the new
caller utterance. -/
def initMessages (history : List Msg) (user_message : String) : List Msg :=
  mkMsg "system" SYSTEM_PROMPT :: history ++ [mkMsg "user" user_message]

/-- The response message object appended verbatim to the transcript when the
model requested tools (`messages.append(response_msg)`, line 97). -/
def msgOfResponse (c : Completion) : Msg :=
  { role := "assistant", content := c.content, toolCallId := none, toolCalls := c.toolCalls }

/-- The tool-result message appended for one tool call (lines 112-116):
role "tool", `tool_call_id` of the originating request, the executor text
as content. -/
def toolMsg (tc : ToolCall) (result : String) : Msg :=
  { role := "tool", content := some result, toolCallId := some tc.id, toolCalls := [] }

/-- The `for tool_call in response_msg.tool_calls` body (lines 100-116):
execute each requested tool in request order and build its result message;
a raised executor exception propagates. -/
def runTools (exec : ToolExec) : List ToolCall → Except Unit (List Msg)
  | [] => Except.ok []
  | tc :: rest =>
    match exec tc.name tc.arguments with
    | Except.error e => Except.error e
    | Except.ok r =>
      match runTools exec rest with
      | Except.error e => Except.error e
      | Except.ok ms => Except.ok (toolMsg tc r :: ms)

/-- Outcome of one round of the agent loop. -/
inductive StepOut
  | thrown
  | final (reply : String)
  | next (messages : List Msg)
deriving Repr

/-- One round of the agentic loop (lines 72-116): invoke the model on the
working transcript; if `finish_reason != "tool_calls"` return the content,
substituting the fallback apology when it is `None` or empty (Python
`if not final_answer`); otherwise append the response message and one
result message per requested tool, in request order. An exception from the
model invocation or a tool propagates (`thrown`): the code has no
try/except here. -/
def step (model : Model) (exec : ToolExec) (messages : List Msg) : StepOut :=
  match model messages with
  | Except.error _ => StepOut.thrown
  | Except.ok c =>
    if c.finishReason ≠ "tool_calls" then
      match c.content with
      | none => StepOut.final FALLBACK
      | some a => if a = "" then StepOut.final FALLBACK else StepOut.final a
    else
      match runTools exec c.toolCalls with
      | Except.error _ => StepOut.thrown
      | Except.ok results => StepOut.next (messages ++ msgOfResponse c :: results)

/-- The two Python list objects alive inside `get_response`: the
caller-supplied `history` list and the fresh `messages` list. Each code
statement of the loop is an update of this state; the code only ever
assigns and appends to `messages`. -/
structure AgentState where
  history : List Msg
  messages : List Msg
deriving Repr

/-- The `while True` agentic loop (lines 70-118), with explicit fuel:
`timeout` means no exit was reached within `fuel` rounds. -/
def loopSt (model : Model) (exec : ToolExec) : Nat → AgentState → AgentState × LoopResult
  | 0, s => (s, LoopResult.timeout)
  | fuel + 1, s =>
    match step model exec s.messages with
    | StepOut.thrown => (s, LoopResult.raised)
    | StepOut.final a => (s, LoopResult.answer a)
    | StepOut.next ms => loopSt model exec fuel { history := s.history, messages := ms }

/-- `get_response(user_message, history, caller_phone)` together with the
final state of the two lists (to observe mutation). `caller_phone` is
accepted and unused by the function body, as in the source. -/
def get_response_st (model : Model) (exec : ToolExec) (fuel : Nat)
    (user_message : String) (history : List Msg) (caller_phone : String) :
    AgentState × LoopResult :=
  let _ := caller_phone
  loopSt model exec fuel { history := history, messages := initMessages history user_message }

/-- `get_response` — the reply string (or raised / not-terminated). -/
def get_response (model : Model) (exec : ToolExec) (fuel : Nat)
    (user_message : String) (history : List Msg) (caller_phone : String) : LoopResult :=
  (get_response_st model exec fuel user_message history caller_phone).2

/-! ## tools.py — the tool registry dispatcher -/

/-- A parsed JSON object, as the association list of its key/value pairs.
Every tool schema in tools.py declares a flat object of string-valued
properties, so string values suffice. -/
def JsonObj : Type := List (String × String)

/-- The Python exceptions `execute_tool` can raise. -/
inductive PyErr
  | jsonDecodeError
  | keyError (key : String)
deriving DecidableEq, Repr

/-- An opening brace character (written by code point to keep braces out of
literals). -/
def lbrace : Char := Char.ofNat 123

/-- A closing brace character. -/
def rbrace : Char := Char.ofNat 125

/-- Drop leading JSON whitespace. -/
def skipWs : List Char → List Char
  | [] => []
  | c :: rest =>
    if c = ' ' ∨ c = '\t' ∨ c = '\n' ∨ c = '\r' then skipWs rest else c :: rest

/-- Read the body of a double-quoted JSON string (opening quote already
consumed); returns the text and the remaining input. A backslash escapes
the following character literally (enough for the flat-string fragment). -/
def parseStringChars : List Char → Option (List Char × List Char)
  | [] => none
  | c :: rest =>
    if c = '"' then some ([], rest)
    else if c = '\\' then
      match rest with
      | [] => none
      | e :: rest2 =>
        match parseStringChars rest2 with
        | some (s, r) => some (e :: s, r)
        | none => none
    else
      match parseStringChars rest with
      | some (s, r) => some (c :: s, r)
      | none => none

/-- Parse the `"key": "value"` pairs of a JSON object, after the opening
brace, up to and including the closing brace. Fuel bounds the recursion;
one unit per pair is ample since each pair consumes input. -/
def parsePairs : Nat → List Char → Option (List (String × String) × List Char)
  | 0, _ => none
  | fuel + 1, cs =>
    match skipWs cs with
    | [] => none
    | c :: rest =>
      if c = '"' then
        match parseStringChars rest with
        | none => none
        | some (k, r1) =>
          match skipWs r1 with
          | ':' :: r3 =>
            match skipWs r3 with
            | c4 :: r4 =>
              if c4 = '"' then
                match parseStringChars r4 with
                | none => none
                | some (v, r5) =>
                  match skipWs r5 with
                  | ',' :: r6 =>
                    match parsePairs fuel r6 with
                    | some (ps, r7) =>
                      some ((String.mk k, String.mk v) :: ps, r7)
                    | none => none
                  | c6 :: r6 =>
                    if c6 = rbrace then some ([(String.mk k, String.mk v)], r6)
                    else none
                  | [] => none
              else none
            | [] => none
          | _ => none
      else none

/-- Modelled from the spec and the Python standard library: `json.loads`,
restricted to the fragment the tool schemas declare — a single flat object
with string keys and string values (or the empty object). Inputs outside
this fragment are treated as parse errors; every concrete input used in a
theorem below lies inside the fragment, where this parser agrees with
`json.loads`. `.error` is a raised `json.JSONDecodeError`. -/
def loads (s : String) : Except Unit JsonObj :=
  match skipWs s.data with
  | [] => Except.error ()
  | c :: rest =>
    if c = lbrace then
      match skipWs rest with
      | [] => Except.error ()
      | c2 :: r2 =>
        if c2 = rbrace then
          if skipWs r2 = [] then Except.ok [] else Except.error ()
        else
          match parsePairs (s.length + 1) (c2 :: r2) with
          | some (ps, r3) =>
            if skipWs r3 = [] then Except.ok ps else Except.error ()
          | none => Except.error ()
    else Except.error ()

/-- `json.dumps` on a flat string-valued row (`default=str` renders every
value as text). -/
def dumps (o : JsonObj) : String :=
  String.singleton lbrace ++
    String.intercalate ", "
      (o.map (fun p => "\"" ++ p.1 ++ "\": \"" ++ p.2 ++ "\"")) ++
    String.singleton rbrace

/-- Python `args[key]` on a dict: the value, or a raised `KeyError`. -/
def getKey (args : JsonObj) (key : String) : Except PyErr String :=
  match List.lookup key args with
  | some v => Except.ok v
  | none => Except.error (PyErr.keyError key)

/-- The external collaborators `execute_tool` dispatches to
(database.py and knowledge_base.py), as deterministic stubs at the
interfaces the code calls: rows are flat string-valued records. -/
structure ToolEnv where
  get_customer : String → Option JsonObj
  search : String → String
  create_ticket : String → String → String → Nat
  get_tickets : String → List JsonObj
  update_customer_status : String → String → Option JsonObj

/-- `execute_tool(name, arguments)` (tools.py lines 142-178):
`json.loads` the raw arguments (no try/except — a parse failure raises to
the caller), then dispatch on the tool name; `args[...]` accesses can
raise `KeyError`. An unknown name returns the "Unknown tool" text. -/
def execute_tool (env : ToolEnv) (name : String) (arguments : String) :
    Except PyErr String :=
  match loads arguments with
  | Except.error _ => Except.error PyErr.jsonDecodeError
  | Except.ok args =>
    if name = "get_customer_info" then
      match getKey args "phone" with
      | Except.error e => Except.error e
      | Except.ok phone =>
        match env.get_customer phone with
        | some result => Except.ok (dumps result)
        | none => Except.ok "Customer not found in database."
    else if name = "search_knowledge_base" then
      match getKey args "query" with
      | Except.error e => Except.error e
      | Except.ok query => Except.ok (env.search query)
    else if name = "create_support_ticket" then
      match getKey args "phone" with
      | Except.error e => Except.error e
      | Except.ok phone =>
        match getKey args "issue" with
        | Except.error e => Except.error e
        | Except.ok issue =>
          match getKey args "priority" with
          | Except.error e => Except.error e
          | Except.ok priority =>
            let ticket_id := env.create_ticket phone issue priority
            Except.ok ("Support ticket created successfully. Ticket ID: " ++
              toString ticket_id ++
              ". The customer will be contacted within 24 hours.")
    else if name = "get_customer_tickets" then
      match getKey args "phone" with
      | Except.error e => Except.error e
      | Except.ok phone =>
        match env.get_tickets phone with
        | [] => Except.ok "No previous support tickets found for this customer."
        | t :: ts =>
          Except.ok ("[" ++ String.intercalate ", " ((t :: ts).map dumps) ++ "]")
    else if name = "update_account_status" then
      match getKey args "phone" with
      | Except.error e => Except.error e
      | Except.ok phone =>
        match getKey args "status" with
        | Except.error e => Except.error e
        | Except.ok status =>
          match env.update_customer_status phone status with
          | some result =>
            Except.ok ("Account status successfully updated to \x27" ++ status ++
              "\x27 for " ++ (List.lookup "name" result).getD "customer" ++ ".")
          | none => Except.ok "Customer not found. Could not update account status."
    else
      Except.ok ("Unknown tool \x27" ++ name ++ "\x27. No action taken.")

/-! ## database.py — the memory adapter -/

/-- One row of the `conversations` table. The table is append-only; the
store below lists its rows in `created_at` order, oldest first, which is
insertion order. -/
structure ConvRow where
  phone : String
  role : String
  content : String
deriving DecidableEq, Repr

/-- Turn a loaded row into the message dict `get_history` builds. -/
def rowToMsg (r : ConvRow) : Msg :=
  mkMsg r.role r.content

/-- `get_history(phone, limit=10)` (database.py lines 56-73): the SQL
`WHERE phone = ... ORDER BY created_at DESC LIMIT limit` selects the most
recent `limit` rows of that caller (newest first); the Python `reversed`
puts them back oldest-first. -/
def get_history (store : List ConvRow) (phone : String) (limit : Nat) : List Msg :=
  let rows := ((store.filter (fun r => r.phone = phone)).reverse).take limit
  rows.reverse.map rowToMsg

/-- A database connection mid-transaction: the rows already committed
(visible to other loads) and the rows inserted by this transaction but not
yet committed. -/
structure Conn where
  committed : List ConvRow
  pending : List ConvRow

/-- `INSERT INTO conversations ...`: stages one row in the transaction. -/
def insertRow (r : ConvRow) (c : Conn) : Conn :=
  { committed := c.committed, pending := c.pending ++ [r] }

/-- `conn.commit()`: the staged rows become visible atomically. -/
def commitConn (c : Conn) : Conn :=
  { committed := c.committed ++ c.pending, pending := [] }

/-- The psycopg2 `with get_conn() as conn` block: run the body in one
transaction; on normal exit commit, on an exception roll back the pending
rows and re-raise. Returns the visible store afterwards and whether an
exception was raised. -/
def withConn (store : List ConvRow) (body : Conn → Except Unit Conn) :
    List ConvRow × Bool :=
  match body { committed := store, pending := [] } with
  | Except.ok c => ((commitConn c).committed, false)
  | Except.error _ => (store, true)

/-- `save_turn(phone, user_msg, assistant_msg)` (database.py lines 76-91):
inside one connection, insert the caller row, insert the agent row, then
commit. `insertOk i` says whether the i-th INSERT statement succeeds; a
failing INSERT raises, so the with-block rolls the transaction back. -/
def save_turn (insertOk : Nat → Bool) (store : List ConvRow)
    (phone user_msg assistant_msg : String) : List ConvRow × Bool :=
  withConn store (fun c0 =>
    if insertOk 0 then
      let c1 := insertRow { phone := phone, role := "user", content := user_msg } c0
      if insertOk 1 then
        let c2 := insertRow { phone := phone, role := "assistant", content := assistant_msg } c1
        Except.ok (commitConn c2)
      else Except.error ()
    else Except.error ())

/-! ## app.py — the call turn controller -/

/-- The fixed strings handle_speech speaks. -/
def TECH_ISSUE : String :=
  "I\x27m sorry, I\x27m having a technical issue. Please hold for a moment."

/-- The repeat prompt for empty transcriptions (app.py line 91). -/
def REPEAT_PROMPT : String :=
  "I didn\x27t catch that. Could you please repeat?"

/-- The follow-up prompt after a reply (app.py line 138). -/
def ANYTHING_ELSE : String :=
  "Is there anything else I can help you with?"

/-- The closing line before hangup (app.py line 142). -/
def GOODBYE : String :=
  "Thank you for calling. Have a great day. Goodbye!"

/-- Python `str.strip()`: drop leading and trailing whitespace (defined on
the character list so concrete inputs evaluate). -/
def strip (s : String) : String :=
  String.mk
    (((s.data.dropWhile Char.isWhitespace).reverse.dropWhile Char.isWhitespace).reverse)

/-- A TwiML directive element emitted by handle_speech: a Gather that
speaks text then listens, a plain Say, or a Hangup. -/
inductive Action
  | gatherSay (text : String)
  | say (text : String)
  | hangup
deriving DecidableEq, Repr

/-- The observable calls handle_speech makes to its collaborators, in
order: a history load, an Agent Loop invocation, a Memory Adapter append. -/
inductive Event
  | loadHistory (phone : String)
  | invokeAgent (utterance : String)
  | appendTurn (phone user_msg assistant_msg : String)
deriving DecidableEq, Repr

/-- What one handle_speech request produced: the TwiML actions of the
response, the collaborator calls made, and the conversation store
afterwards. -/
structure TurnResult where
  actions : List Action
  events : List Event
  store : List ConvRow
deriving DecidableEq, Repr

/-- `handle_speech` (app.py lines 64-145): strip the transcription; if
empty, answer with the repeat prompt and return (no history load, no agent
invocation, no save). Otherwise load history, run the agent loop inside
try/except (an exception becomes the technical-issue apology), save the
turn inside try/except (a save failure is logged and ignored), and emit
the reply with follow-up prompts. `none` means the agent loop did not
terminate within its fuel, so no response was produced. -/
def handle_speech (model : Model) (exec : ToolExec) (fuel : Nat)
    (insertOk : Nat → Bool) (store : List ConvRow)
    (speechResult callerPhone : String) : Option TurnResult :=
  let user_speech := strip speechResult
  if user_speech = "" then
    some { actions := [Action.gatherSay REPEAT_PROMPT], events := [], store := store }
  else
    let history := get_history store callerPhone 10
    let mkResult : String → Option TurnResult := fun reply =>
      let saved := save_turn insertOk store callerPhone user_speech reply
      some { actions := [Action.gatherSay reply, Action.gatherSay ANYTHING_ELSE,
                         Action.say GOODBYE, Action.hangup],
             events := [Event.loadHistory callerPhone, Event.invokeAgent user_speech,
                        Event.appendTurn callerPhone user_speech reply],
             store := saved.1 }
    match get_response model exec fuel user_speech history callerPhone with
    | LoopResult.timeout => none
    | LoopResult.raised => mkResult TECH_ISSUE
    | LoopResult.answer reply => mkResult reply

/-! ## Deterministic stubs for concrete evaluations -/

/-- A concrete external-collaborator stub: one known customer. -/
def stubEnv : ToolEnv :=
  { get_customer := fun p =>
      if p = "+15550001111" then
        some [("name", "Alice"), ("phone", "+15550001111"), ("status", "active")]
      else none,
    search := fun _ => "Password reset: open settings and choose reset password.",
    create_ticket := fun _ _ _ => 42,
    get_tickets := fun _ => [],
    update_customer_status := fun p s =>
      if p = "+15550001111" then some [("name", "Alice"), ("status", s)] else none }

/-- A total deterministic tool stub for the loop. -/
def stubToolFn (name : String) (arguments : String) : String :=
  "result of " ++ name ++ " on " ++ arguments

/-- One concrete tool request. -/
def stubCall : ToolCall :=
  { id := "call_1", name := "get_customer_info",
    arguments := "\x7b\"phone\": \"+15550001111\"\x7d" }

/-- A model stub that requests a tool on every invocation
(finish reason always "tool_calls"). -/
def alwaysToolModel : Model :=
  fun _ => Except.ok { finishReason := "tool_calls", content := none, toolCalls := [stubCall] }

/-- A model stub whose invocation always raises. -/
def errModel : Model :=
  fun _ => Except.error ()

/-- A model stub that immediately finishes with the given text. -/
def constModel (reply : String) : Model :=
  fun _ => Except.ok { finishReason := "stop", content := some reply, toolCalls := [] }

/-- A model stub that finishes with a null (`None`) final content. -/
def emptyModel : Model :=
  fun _ => Except.ok { finishReason := "stop", content := none, toolCalls := [] }

/-- An insert oracle under which every INSERT succeeds. -/
def allOk : Nat → Bool :=
  fun _ => true

/-- A concrete three-row conversation store for one caller. -/
def store3 : List ConvRow :=
  [{ phone := "+15550001111", role := "user", content := "first question" },
   { phone := "+15550001111", role := "assistant", content := "first answer" },
   { phone := "+15550001111", role := "user", content := "second question" }]

/-! ## Helper lemmas -/

/-- The loop state keeps the caller-supplied history list unchanged: every
operation of the loop body writes only to the `messages` list. -/
theorem loopSt_history (model : Model) (exec : ToolExec) :
    ∀ (fuel : Nat) (s : AgentState), (loopSt model exec fuel s).1.history = s.history := by
  intro fuel
  induction fuel with
  | zero => intro s; rfl
  | succ n ih =>
    intro s
    unfold loopSt
    cases step model exec s.messages with
    | thrown => rfl
    | final a => rfl
    | next ms => exact ih { history := s.history, messages := ms }

/-- A total tool stub executes every requested call in request order,
producing one result message per request tagged with its id. -/
theorem runTools_total (f : String → String → String) :
    ∀ calls : List ToolCall,
      runTools (totalExec f) calls =
        Except.ok (calls.map (fun tc => toolMsg tc (f tc.name tc.arguments))) := by
  intro calls
  induction calls with
  | nil => rfl
  | cons tc rest ih => simp [runTools, totalExec, ih]

/-- If one round ends with a final reply, that reply is not empty: the code
substitutes the fallback apology for a null or empty content. -/
theorem step_final_nonempty (model : Model) (exec : ToolExec) (messages : List Msg)
    (a : String) (h : step model exec messages = StepOut.final a) : a ≠ "" := by
  unfold step at h
  split at h
  · simp at h
  · split at h
    · split at h
      · injection h with h
        subst h
        decide
      · split at h
        · injection h with h
          subst h
          decide
        · injection h with h
          subst h
          assumption
    · split at h
      · simp at h
      · simp at h

/-- Whatever the model and tools do, a reply the loop returns is never the
empty string. -/
theorem loopSt_answer_nonempty (model : Model) (exec : ToolExec) :
    ∀ (fuel : Nat) (s : AgentState) (a : String),
      (loopSt model exec fuel s).2 = LoopResult.answer a → a ≠ "" := by
  intro fuel
  induction fuel with
  | zero => intro s a h; exact absurd h (by simp [loopSt])
  | succ n ih =>
    intro s a h
    unfold loopSt at h
    cases hs : step model exec s.messages with
    | thrown => rw [hs] at h; exact absurd h (by simp)
    | final b =>
      rw [hs] at h
      simp at h
      rw [← h]
      exact step_final_nonempty model exec s.messages b hs
    | next ms =>
      rw [hs] at h
      exact ih { history := s.history, messages := ms } a h

/-- With a model that always requests a tool, every round of the loop takes
the tool branch, so no fuel bound is ever enough to produce an answer. -/
theorem loopSt_alwaysTool_timeout (f : String → String → String) :
    ∀ (fuel : Nat) (s : AgentState),
      (loopSt alwaysToolModel (totalExec f) fuel s).2 = LoopResult.timeout := by
  intro fuel
  induction fuel with
  | zero => intro s; rfl
  | succ n ih =>
    intro s
    unfold loopSt
    have hstep : step alwaysToolModel (totalExec f) s.messages =
        StepOut.next (s.messages ++
          msgOfResponse { finishReason := "tool_calls", content := none, toolCalls := [stubCall] } ::
          [toolMsg stubCall (f stubCall.name stubCall.arguments)]) := by
      unfold step alwaysToolModel
      simp [runTools_total]
    rw [hstep]
    exact ih _

/-- Taking the last `n` elements (reverse, take, reverse) is dropping all
but the last `n`. -/
theorem reverse_take_reverse_eq_drop {α : Type} :
    ∀ (l : List α) (n : Nat), (l.reverse.take n).reverse = l.drop (l.length - n) := by
  intro l
  induction l with
  | nil => intro n; simp
  | cons a l ih =>
    intro n
    rcases Nat.lt_or_ge n (l.length + 1) with hn | hn
    · have htake : (a :: l).reverse.take n = l.reverse.take n := by
        simp only [List.reverse_cons]
        rw [List.take_append_eq_append_take]
        have : n - l.reverse.length = 0 := by simp; omega
        rw [this]
        simp
      rw [htake, ih]
      have h1 : (a :: l).length - n = (l.length - n) + 1 := by simp; omega
      rw [h1]
      rfl
    · have h0 : (a :: l).length - n = 0 := by simp; omega
      rw [h0, List.drop_zero]
      have htake : (a :: l).reverse.take n = (a :: l).reverse := by
        apply List.take_of_length_le
        simp
        omega
      rw [htake, List.reverse_reverse]

/-! ## Claim theorems -/

/-- Claim C1: the spec requires a configured bounded maximum round count
within which the Agent Loop stops and returns the fallback apology when a
model requests a tool on every invocation. The code has no such cap: the
loop is an unbounded `while True`, and with `alwaysToolModel` (a model
stub that always requests a tool) no round budget is ever enough — for
every fuel the loop is still running (`timeout`) and the fallback apology
is never returned. -/
theorem get_response_no_cap_diverges (f : String → String → String) (fuel : Nat)
    (u : String) (history : List Msg) (p : String) :
    get_response alwaysToolModel (totalExec f) fuel u history p = LoopResult.timeout :=
  loopSt_alwaysTool_timeout f fuel _

/-- Claim C2: `execute_tool` is claimed never to raise. In the code,
`json.loads` runs with no try/except, so non-JSON argument text raises
`JSONDecodeError` to the caller, and a JSON object missing a required key
raises `KeyError`; only the unknown-tool-name case returns the claimed
textual error description. -/
theorem execute_tool_raises_on_malformed :
    execute_tool stubEnv "get_customer_info" "not json" =
      Except.error PyErr.jsonDecodeError ∧
    execute_tool stubEnv "get_customer_info" "\x7b\x7d" =
      Except.error (PyErr.keyError "phone") ∧
    execute_tool stubEnv "frobnicate" "\x7b\x7d" =
      Except.ok ("Unknown tool \x27frobnicate\x27. No action taken.") :=
  ⟨rfl, rfl, rfl⟩

/-- Claim C3 counterexample: `get_response` contains no try/except, so a
raised model invocation error propagates out of `get_response` as an
exception (`raised`) instead of being converted to the fallback apology
inside the loop. -/
theorem get_response_propagates_model_error :
    get_response errModel (totalExec stubToolFn) 3 "hello" [] "+15550001111" =
      LoopResult.raised :=
  rfl

/-- Claim C3 (amended): an error raised by the model invocation propagates
out of `get_response`; it is the Call Turn Controller (`handle_speech`,
app.py lines 100-104) that catches it and degrades to the technical-issue
apology string, so no exception escapes the controller and the call
continues (the exchange is still persisted). -/
theorem handle_speech_catches_model_error (exec : ToolExec) (fuel : Nat)
    (insertOk : Nat → Bool) (store : List ConvRow) (speech phone : String)
    (model : Model) (hs : strip speech ≠ "") (hf : 0 < fuel)
    (hm : ∀ ms, model ms = Except.error ()) :
    handle_speech model exec fuel insertOk store speech phone =
      some { actions := [Action.gatherSay TECH_ISSUE, Action.gatherSay ANYTHING_ELSE,
                         Action.say GOODBYE, Action.hangup],
             events := [Event.loadHistory phone, Event.invokeAgent (strip speech),
                        Event.appendTurn phone (strip speech) TECH_ISSUE],
             store := (save_turn insertOk store phone (strip speech) TECH_ISSUE).1 } := by
  obtain ⟨n, rfl⟩ : ∃ n, fuel = n + 1 := ⟨fuel - 1, by omega⟩
  have hraised : ∀ (msgs0 hist0 : List Msg),
      (loopSt model exec (n + 1) { history := hist0, messages := msgs0 }).2 =
        LoopResult.raised := by
    intro msgs0 hist0
    have hstep : step model exec msgs0 = StepOut.thrown := by
      unfold step
      rw [hm]
    unfold loopSt
    rw [hstep]
  have hresp : get_response model exec (n + 1) (strip speech)
      (get_history store phone 10) phone = LoopResult.raised :=
    hraised _ _
  simp only [handle_speech, if_neg hs, hresp]

/-- Claim C3 witness: with a model stub whose invocation always raises,
`handle_speech` still answers, speaking the technical-issue apology. -/
theorem handle_speech_catches_model_error_witness :
    handle_speech errModel (totalExec stubToolFn) 1 allOk store3 "hello" "+15550001111" =
      some { actions := [Action.gatherSay TECH_ISSUE, Action.gatherSay ANYTHING_ELSE,
                         Action.say GOODBYE, Action.hangup],
             events := [Event.loadHistory "+15550001111", Event.invokeAgent (strip "hello"),
                        Event.appendTurn "+15550001111" (strip "hello") TECH_ISSUE],
             store := (save_turn allOk store3 "+15550001111" (strip "hello") TECH_ISSUE).1 } :=
  handle_speech_catches_model_error (totalExec stubToolFn) 1 allOk store3
    "hello" "+15550001111" errModel (by decide) (by decide) (fun _ => rfl)

/-- Claim C4: the empty-reply guard. If the model signals completion with a
null or empty content, the first round returns the fixed fallback apology;
and whatever the model and tools do, a reply returned by `get_response` is
never the empty string. -/
theorem get_response_empty_reply_guard :
    (∀ (model : Model) (exec : ToolExec) (fuel : Nat) (u : String) (hist : List Msg)
        (p : String) (c : Completion),
        model (initMessages hist u) = Except.ok c →
        c.finishReason ≠ "tool_calls" →
        (c.content = none ∨ c.content = some "") →
        0 < fuel →
        get_response model exec fuel u hist p = LoopResult.answer FALLBACK) ∧
    (∀ (model : Model) (exec : ToolExec) (fuel : Nat) (u : String) (hist : List Msg)
        (p : String) (a : String),
        get_response model exec fuel u hist p = LoopResult.answer a → a ≠ "") := by
  constructor
  · intro model exec fuel u hist p c hm hf hc hfuel
    obtain ⟨n, rfl⟩ : ∃ n, fuel = n + 1 := ⟨fuel - 1, by omega⟩
    have hstep : step model exec (initMessages hist u) = StepOut.final FALLBACK := by
      unfold step
      rw [hm]
      cases hc with
      | inl hnone => simp [hf, hnone]
      | inr hempty => simp [hf, hempty]
    show (loopSt model exec (n + 1)
        { history := hist, messages := initMessages hist u }).2 =
      LoopResult.answer FALLBACK
    unfold loopSt
    rw [hstep]
  · intro model exec fuel u hist p a h
    exact loopSt_answer_nonempty model exec fuel
      { history := hist, messages := initMessages hist u } a h

/-- Claim C4 witness: a model stub that finishes with null content makes
`get_response` return the (non-empty) fallback apology. -/
theorem get_response_empty_reply_guard_witness :
    get_response emptyModel (totalExec stubToolFn) 1 "hi" [] "+1" =
      LoopResult.answer FALLBACK ∧
    FALLBACK ≠ "" :=
  ⟨get_response_empty_reply_guard.1 emptyModel (totalExec stubToolFn) 1 "hi" [] "+1"
      { finishReason := "stop", content := none, toolCalls := [] }
      rfl (by decide) (Or.inl rfl) (by decide),
   get_response_empty_reply_guard.2 emptyModel (totalExec stubToolFn) 1 "hi" [] "+1"
      FALLBACK rfl⟩

/-- Claim C5: `get_history` returns the persisted turns of the caller
oldest-first and capped: all of them when at most `limit` are stored, and
exactly the most recent `limit` (still oldest-first, a chronological
suffix) when more are stored. -/
theorem get_history_oldest_first_capped (store : List ConvRow) (phone : String)
    (limit : Nat) :
    ((store.filter (fun r => r.phone = phone)).length ≤ limit →
      get_history store phone limit =
        (store.filter (fun r => r.phone = phone)).map rowToMsg) ∧
    (limit < (store.filter (fun r => r.phone = phone)).length →
      get_history store phone limit =
        ((store.filter (fun r => r.phone = phone)).drop
          ((store.filter (fun r => r.phone = phone)).length - limit)).map rowToMsg) := by
  have key : get_history store phone limit =
      ((store.filter (fun r => r.phone = phone)).drop
        ((store.filter (fun r => r.phone = phone)).length - limit)).map rowToMsg := by
    simp only [get_history]
    rw [reverse_take_reverse_eq_drop]
  constructor
  · intro hle
    rw [key]
    have hz : (store.filter (fun r => r.phone = phone)).length - limit = 0 := by omega
    rw [hz, List.drop_zero]
  · intro _
    exact key

/-- Claim C5 witness: on a three-row store, a cap of 10 returns all three
rows oldest-first and a cap of 2 returns the most recent two. -/
theorem get_history_oldest_first_capped_witness :
    get_history store3 "+15550001111" 10 =
      (store3.filter (fun r => r.phone = "+15550001111")).map rowToMsg ∧
    get_history store3 "+15550001111" 2 =
      ((store3.filter (fun r => r.phone = "+15550001111")).drop
        ((store3.filter (fun r => r.phone = "+15550001111")).length - 2)).map rowToMsg :=
  ⟨(get_history_oldest_first_capped store3 "+15550001111" 10).1 (by decide),
   (get_history_oldest_first_capped store3 "+15550001111" 2).2 (by decide)⟩

/-- Claim C6: an empty (after strip) transcription makes `handle_speech`
emit the repeat prompt and return at once: no history load, no Agent Loop
invocation, no Memory Adapter append (the event list is empty), and the
conversation store is untouched. -/
theorem handle_speech_empty_utterance (model : Model) (exec : ToolExec) (fuel : Nat)
    (insertOk : Nat → Bool) (store : List ConvRow) (speech phone : String)
    (h : strip speech = "") :
    handle_speech model exec fuel insertOk store speech phone =
      some { actions := [Action.gatherSay REPEAT_PROMPT], events := [], store := store } := by
  simp [handle_speech, h]

/-- Claim C6 witness: a whitespace-only transcription takes the repeat
branch. -/
theorem handle_speech_empty_utterance_witness :
    handle_speech (constModel "Hello.") (totalExec stubToolFn) 1 allOk store3
        "   " "+15550001111" =
      some { actions := [Action.gatherSay REPEAT_PROMPT], events := [], store := store3 } :=
  handle_speech_empty_utterance (constModel "Hello.") (totalExec stubToolFn) 1
    allOk store3 "   " "+15550001111" (by decide)

/-- Claim C7: `save_turn` is atomic per exchange. Both inserts run in one
transaction with one commit: when both succeed the caller row and then the
agent row become visible together at the end of the store; when either
insert fails the transaction rolls back and the visible store is exactly
the original — no half-written exchange is ever observable. -/
theorem save_turn_atomic (insertOk : Nat → Bool) (store : List ConvRow)
    (phone user_msg assistant_msg : String) :
    save_turn insertOk store phone user_msg assistant_msg =
      (if insertOk 0 && insertOk 1 then
         store ++ [{ phone := phone, role := "user", content := user_msg },
                   { phone := phone, role := "assistant", content := assistant_msg }]
       else store,
       !(insertOk 0 && insertOk 1)) := by
  cases h0 : insertOk 0 <;> cases h1 : insertOk 1 <;>
    simp [save_turn, withConn, insertRow, commitConn, h0, h1]

/-- Claim C8: the Agent Loop is deterministic — two invocations of
`get_response` with identical history, utterance and identity against the
same deterministic model and tool stubs produce the same result. -/
theorem get_response_deterministic (model : Model) (exec : ToolExec) (fuel : Nat)
    (u₁ u₂ : String) (h₁ h₂ : List Msg) (p₁ p₂ : String)
    (hu : u₁ = u₂) (hh : h₁ = h₂) (hp : p₁ = p₂) :
    get_response model exec fuel u₁ h₁ p₁ = get_response model exec fuel u₂ h₂ p₂ := by
  subst hu
  subst hh
  subst hp
  rfl

/-- Claim C8 witness: two identical invocations agree. -/
theorem get_response_deterministic_witness :
    get_response (constModel "Hello there.") (totalExec stubToolFn) 2 "hi" [] "+1" =
      get_response (constModel "Hello there.") (totalExec stubToolFn) 2 "hi" [] "+1" :=
  get_response_deterministic (constModel "Hello there.") (totalExec stubToolFn) 2
    "hi" "hi" [] [] "+1" "+1" rfl rfl rfl

/-- Claim C9: in a round where the model requests tools, the working
transcript is extended by the tool-request message followed by one result
message per requested call — tagged with that call id and in request
order — and only then does the next model invocation run (the loop
recurses on the fully extended transcript). -/
theorem tool_round_appends_results_in_order (model : Model)
    (f : String → String → String) (messages : List Msg) (c : Completion)
    (hm : model messages = Except.ok c) (hf : c.finishReason = "tool_calls") :
    step model (totalExec f) messages =
      StepOut.next (messages ++ msgOfResponse c ::
        c.toolCalls.map (fun tc => toolMsg tc (f tc.name tc.arguments))) ∧
    (∀ (fuel : Nat) (hist : List Msg),
      loopSt model (totalExec f) (fuel + 1) { history := hist, messages := messages } =
        loopSt model (totalExec f) fuel
          { history := hist,
            messages := messages ++ msgOfResponse c ::
              c.toolCalls.map (fun tc => toolMsg tc (f tc.name tc.arguments)) }) := by
  have hstep : step model (totalExec f) messages =
      StepOut.next (messages ++ msgOfResponse c ::
        c.toolCalls.map (fun tc => toolMsg tc (f tc.name tc.arguments))) := by
    unfold step
    rw [hm]
    simp [hf, runTools_total]
  refine ⟨hstep, fun fuel hist => ?_⟩
  simp only [loopSt, hstep]

/-- Claim C9 witness: one concrete tool round appends the request message
and its tagged result, and the loop continues on that transcript. -/
theorem tool_round_appends_results_in_order_witness :
    (step alwaysToolModel (totalExec stubToolFn) (initMessages [] "hi") =
      StepOut.next (initMessages [] "hi" ++ msgOfResponse
          { finishReason := "tool_calls", content := none, toolCalls := [stubCall] } ::
        List.map (fun tc => toolMsg tc (stubToolFn tc.name tc.arguments)) [stubCall])) ∧
    (loopSt alwaysToolModel (totalExec stubToolFn) 1
        { history := [], messages := initMessages [] "hi" } =
      loopSt alwaysToolModel (totalExec stubToolFn) 0
        { history := [],
          messages := initMessages [] "hi" ++ msgOfResponse
              { finishReason := "tool_calls", content := none, toolCalls := [stubCall] } ::
            List.map (fun tc => toolMsg tc (stubToolFn tc.name tc.arguments)) [stubCall] }) :=
  ⟨(tool_round_appends_results_in_order alwaysToolModel stubToolFn (initMessages [] "hi")
      { finishReason := "tool_calls", content := none, toolCalls := [stubCall] } rfl rfl).1,
   (tool_round_appends_results_in_order alwaysToolModel stubToolFn (initMessages [] "hi")
      { finishReason := "tool_calls", content := none, toolCalls := [stubCall] } rfl rfl).2
     0 []⟩

/-- Claim C10: `get_response` never mutates the caller-supplied history
list. The working transcript starts as a fresh list (`initMessages`) and
every append of the loop goes to that fresh list only, so after the call
the history component of the final state is the history passed in,
unchanged in length and in every element. -/
theorem get_response_preserves_history (model : Model) (exec : ToolExec) (fuel : Nat)
    (u : String) (history : List Msg) (p : String) :
    (get_response_st model exec fuel u history p).1.history = history :=
  loopSt_history model exec fuel _

end CustomerService
